import Mathlib

/-!
Verification of the CRI server lifecycle (src/server.rs).

The Rust source is shallowly embedded: filesystem state and the process
state (environment variable, logger flag, persist counter) are passed
explicitly, and the outcomes of OS-level operations that can fail for
external reasons (file removal, directory creation, socket bind, signal
registration, the select race, persist, the final removal) are supplied
by explicit oracle values. Each embedded function mirrors the control
flow of its Rust counterpart statement by statement.
-/

namespace Cri

/-- A filesystem path: an absoluteness flag plus the list of components.
Mirrors std::path::Path as used by the server (is_absolute, exists,
parent). -/
structure FsPath where
  absolute : Bool
  components : List String
deriving DecidableEq, Repr

/-- Path.parent from the Rust standard library: drops the last component;
none when there is no component left (the root path or the empty path). -/
def FsPath.parent (p : FsPath) : Option FsPath :=
  match p.components with
  | [] => none
  | _ => some ⟨p.absolute, p.components.dropLast⟩

/-- The path itself together with every ancestor prefix, as created by
fs::create_dir_all. -/
def FsPath.selfAndAncestors (p : FsPath) : List FsPath :=
  (List.range (p.components.length + 1)).map (fun i => ⟨p.absolute, p.components.take i⟩)

/-- Filesystem state: non-directory entries (regular files and sockets)
and directories. -/
structure Fs where
  files : List FsPath
  dirs : List FsPath
deriving DecidableEq, Repr

/-- Path.exists: an entry of either kind is present at the path. -/
def Fs.pathExists (fs : Fs) (p : FsPath) : Bool :=
  fs.files.contains p || fs.dirs.contains p

/-- The error outcomes of the server, one constructor per distinct failure
site of src/server.rs, named after the taxonomy the failures fall into. -/
inductive ServerError where
  | configurationError (msg : String)
  | filesystemError (msg : String)
  | storageOpenError
  | loggerInitError
  | signalError
  | transportError
  | persistenceError
  | noParent
deriving DecidableEq, Repr

/-- Oracle for OS-level filesystem operations whose success depends on the
outside world (permissions, races, address in use). -/
structure FsOracle where
  removeOk : Bool
  mkdirOk : Bool
  bindOk : Bool
deriving DecidableEq, Repr

/-- tokio::fs::remove_file: succeeds when the path is an existing
non-directory entry and the OS permits the removal; removes every record
of the entry. -/
def removeFile (o : FsOracle) (fs : Fs) (p : FsPath) : Fs × Except ServerError Unit :=
  if fs.files.contains p && !(fs.dirs.contains p) && o.removeOk then
    ({ fs with files := fs.files.filter (fun q => q ≠ p) }, .ok ())
  else
    (fs, .error (.filesystemError "unable to remove socket file"))

/-- tokio::fs::create_dir_all: creates the directory and all missing
ancestors; fails only when the OS refuses. -/
def createDirAll (o : FsOracle) (fs : Fs) (p : FsPath) : Fs × Except ServerError Unit :=
  if o.mkdirOk then
    ({ fs with
        dirs := fs.dirs ++ (p.selfAndAncestors.filter (fun q => !(fs.dirs.contains q))) },
      .ok ())
  else
    (fs, .error (.filesystemError "create socket dir"))

/-- UnixListener::bind: creates the socket entry at the path; fails when
an entry already exists there (address in use) or the OS refuses. -/
def bindSocket (o : FsOracle) (fs : Fs) (p : FsPath) : Fs × Except ServerError Unit :=
  if !(fs.pathExists p) && o.bindOk then
    ({ fs with files := p :: fs.files }, .ok ())
  else
    (fs, .error (.filesystemError "bind socket from path"))

/-- Log severity, mirroring log::LevelFilter. -/
inductive LogLevel where
  | off | errorLevel | warn | info | debugLevel | trace
deriving DecidableEq, Repr

/-- The Display rendering of log::LevelFilter. -/
def LogLevel.render : LogLevel → String
  | .off => "OFF"
  | .errorLevel => "ERROR"
  | .warn => "WARN"
  | .info => "INFO"
  | .debugLevel => "DEBUG"
  | .trace => "TRACE"

/-- config::LogScope. -/
inductive LogScope where
  | Global | ScopedToOwner
deriving DecidableEq, Repr

/-- The immutable configuration view consumed by the server. -/
structure Config where
  sock_path : FsPath
  storage_path : FsPath
  log_level : LogLevel
  log_scope : LogScope
deriving DecidableEq, Repr

/-- clap::crate_name!, the name of the owning crate. -/
def crateName : String := "cri"

/-- Process state threaded through the server functions: the RUST_LOG
environment variable, whether a global logger is already installed,
the filesystem, and how many times persist has been invoked on the
storage handle. -/
structure ProcState where
  rustLogVar : Option String
  loggerInitialized : Bool
  fs : Fs
  persistCount : Nat
deriving DecidableEq, Repr

/-- The resolved logging filter string, as computed by the let binding at
the top of Server::set_logging_verbosity. -/
def resolveFilter (cfg : Config) : String :=
  if cfg.log_scope = LogScope.Global then cfg.log_level.render
  else crateName ++ "=" ++ cfg.log_level.render

/-- Server::set_logging_verbosity: computes the filter, stores it in the
RUST_LOG environment variable via env::set_var, then calls
env_logger::try_init, which fails when a logger is already installed;
that failure is propagated with a context. -/
def set_logging_verbosity (cfg : Config) (s : ProcState) : ProcState × Except ServerError Unit :=
  let level := resolveFilter cfg
  let s1 := { s with rustLogVar := some level }
  if s1.loggerInitialized then (s1, .error .loggerInitError)
  else ({ s1 with loggerInitialized := true }, .ok ())

/-- Server::unix_domain_listener: bails when the socket path is not
absolute; removes a pre-existing entry, otherwise recursively creates the
parent directory; then binds. Returns the filesystem after whatever
mutations happened, with the result. -/
def unix_domain_listener (cfg : Config) (o : FsOracle) (fs : Fs) :
    Fs × Except ServerError Unit :=
  let sock_path := cfg.sock_path
  if !sock_path.absolute then
    (fs, .error (.configurationError "specified socket path is not absolute"))
  else if fs.pathExists sock_path then
    match removeFile o fs sock_path with
    | (fs1, .error e) => (fs1, .error e)
    | (fs1, .ok _) => bindSocket o fs1 sock_path
  else
    match sock_path.parent with
    | none => (fs, .error .noParent)
    | some dir =>
      match createDirAll o fs dir with
      | (fs1, .error e) => (fs1, .error e)
      | (fs1, .ok _) => bindSocket o fs1 sock_path

/-- A gRPC request as seen by the interceptor: tonic::Request of unit,
carrying only metadata. -/
structure Request where
  metadata : List (String × String)
deriving DecidableEq, Repr

/-- A tonic::Status rejection. -/
structure GrpcStatus where
  code : Nat
  message : String
deriving DecidableEq, Repr

/-- Server::intercept: logs the request at debug level and passes it
through unchanged. Returns the diagnostic records it emitted together
with its result. -/
def intercept (req : Request) : List String × Except GrpcStatus Request :=
  ([reprStr req], .ok req)

/-- Which branch of the tokio::select! race completes first. -/
inductive RaceOutcome where
  | serveOk
  | serveErr
  | interrupt
  | terminate
deriving DecidableEq, Repr

/-- Environment for one run of Server::start: outcomes of every
externally decided operation. -/
structure StartEnv where
  storageOpenOk : Bool
  fsOracle : FsOracle
  signalRegistrationOk : Bool
  race : RaceOutcome
  persistOk : Bool
  cleanupRemoveOk : Bool
deriving DecidableEq, Repr

/-- Server::cleanup: invokes persist on the storage handle, propagating a
persist failure immediately, then removes the socket file with
std::fs::remove_file. -/
def cleanup (cfg : Config) (e : StartEnv) (s : ProcState) : ProcState × Except ServerError Unit :=
  let s1 := { s with persistCount := s.persistCount + 1 }
  if !e.persistOk then (s1, .error .persistenceError)
  else if s1.fs.files.contains cfg.sock_path && !(s1.fs.dirs.contains cfg.sock_path)
        && e.cleanupRemoveOk then
    ({ s1 with fs := { s1.fs with files := s1.fs.files.filter (fun q => q ≠ cfg.sock_path) } },
      .ok ())
  else
    (s1, .error (.filesystemError "remove socket path"))

/-- Server::start: sets the logging verbosity, opens the storage, binds
the unix domain listener, registers the two signal handlers, races the
serve loop against the signals, and runs cleanup. A transport error of
the serve branch is propagated immediately, before cleanup. -/
def start (cfg : Config) (e : StartEnv) (s : ProcState) : ProcState × Except ServerError Unit :=
  match set_logging_verbosity cfg s with
  | (s1, .error err) => (s1, .error err)
  | (s1, .ok _) =>
    if !e.storageOpenOk then (s1, .error .storageOpenError)
    else
      match unix_domain_listener cfg e.fsOracle s1.fs with
      | (fs1, .error err) => ({ s1 with fs := fs1 }, .error err)
      | (fs1, .ok _) =>
        let s2 := { s1 with fs := fs1 }
        if !e.signalRegistrationOk then (s2, .error .signalError)
        else
          match e.race with
          | .serveErr => (s2, .error .transportError)
          | _ => cleanup cfg e s2

/-! Concrete sample values used by witnesses and counterexamples. -/

/-- The sample socket path /var/run/cri.sock. -/
def sampleSockPath : FsPath := ⟨true, ["var", "run", "cri.sock"]⟩

/-- A sample configuration with an absolute socket path and Global scope. -/
def sampleConfig : Config :=
  ⟨sampleSockPath, ⟨true, ["var", "lib", "cri"]⟩, .info, .Global⟩

/-- A sample configuration with a relative socket path. -/
def relConfig : Config :=
  ⟨⟨false, ["not", "absolute", "path"]⟩, ⟨true, ["var", "lib", "cri"]⟩, .info, .Global⟩

/-- A filesystem in which the socket path is free but its parent
directories exist. -/
def sampleFs : Fs :=
  ⟨[], [⟨true, []⟩, ⟨true, ["var"]⟩, ⟨true, ["var", "run"]⟩]⟩

/-- A filesystem in which a stale socket file is present. -/
def staleFs : Fs :=
  ⟨[sampleSockPath], [⟨true, []⟩, ⟨true, ["var"]⟩, ⟨true, ["var", "run"]⟩]⟩

/-- An oracle under which every OS operation succeeds. -/
def allOk : FsOracle := ⟨true, true, true⟩

/-- Fresh process state: no RUST_LOG, logger not yet installed, sample
filesystem, persist never invoked. -/
def initState : ProcState := ⟨none, false, sampleFs, 0⟩

/-- Process state after some earlier run: logger already installed,
stale socket file on disk. -/
def staleState : ProcState := ⟨some "INFO", true, staleFs, 0⟩

/-- Start environment where every external operation succeeds and the
race is won by the interrupt signal. -/
def interruptEnv : StartEnv := ⟨true, allOk, true, .interrupt, true, true⟩

/-- Start environment where the serve loop ends first, with a transport
error; everything else would succeed. -/
def serveErrEnv : StartEnv := ⟨true, allOk, true, .serveErr, true, true⟩

/-- Start environment where persist fails during cleanup; everything else
succeeds and the race is won by the terminate signal. -/
def persistFailEnv : StartEnv := ⟨true, allOk, true, .terminate, false, true⟩

/-! Unfolding lemmas: the value of start on each control-flow branch. -/

theorem set_logging_verbosity_of_not_initialized (cfg : Config) (s : ProcState)
    (h : s.loggerInitialized = false) :
    set_logging_verbosity cfg s =
      ({ s with rustLogVar := some (resolveFilter cfg), loggerInitialized := true },
        .ok ()) := by
  simp [set_logging_verbosity, h]

theorem set_logging_verbosity_of_initialized (cfg : Config) (s : ProcState)
    (h : s.loggerInitialized = true) :
    set_logging_verbosity cfg s =
      ({ s with rustLogVar := some (resolveFilter cfg) }, .error .loggerInitError) := by
  simp [set_logging_verbosity, h]

theorem start_of_logger_initialized (cfg : Config) (e : StartEnv) (s : ProcState)
    (h : s.loggerInitialized = true) :
    start cfg e s =
      ({ s with rustLogVar := some (resolveFilter cfg) }, .error .loggerInitError) := by
  simp [start, set_logging_verbosity_of_initialized cfg s h]

theorem start_of_storage_fail (cfg : Config) (e : StartEnv) (s : ProcState)
    (hlog : s.loggerInitialized = false) (hst : e.storageOpenOk = false) :
    start cfg e s =
      ({ s with rustLogVar := some (resolveFilter cfg), loggerInitialized := true },
        .error .storageOpenError) := by
  simp [start, set_logging_verbosity_of_not_initialized cfg s hlog, hst]

theorem start_of_listener_fail (cfg : Config) (e : StartEnv) (s : ProcState)
    (hlog : s.loggerInitialized = false) (hst : e.storageOpenOk = true)
    (fs1 : Fs) (err : ServerError)
    (hu : unix_domain_listener cfg e.fsOracle s.fs = (fs1, .error err)) :
    start cfg e s =
      ({ s with rustLogVar := some (resolveFilter cfg), loggerInitialized := true, fs := fs1 }, .error err) := by
  simp [start, set_logging_verbosity_of_not_initialized cfg s hlog, hst, hu]

theorem start_of_signal_fail (cfg : Config) (e : StartEnv) (s : ProcState)
    (hlog : s.loggerInitialized = false) (hst : e.storageOpenOk = true)
    (fs1 : Fs)
    (hu : unix_domain_listener cfg e.fsOracle s.fs = (fs1, .ok ()))
    (hsig : e.signalRegistrationOk = false) :
    start cfg e s =
      ({ s with rustLogVar := some (resolveFilter cfg), loggerInitialized := true, fs := fs1 }, .error .signalError) := by
  simp [start, set_logging_verbosity_of_not_initialized cfg s hlog, hst, hu, hsig]

theorem start_of_serve_error (cfg : Config) (e : StartEnv) (s : ProcState)
    (hlog : s.loggerInitialized = false) (hst : e.storageOpenOk = true)
    (fs1 : Fs)
    (hu : unix_domain_listener cfg e.fsOracle s.fs = (fs1, .ok ()))
    (hsig : e.signalRegistrationOk = true)
    (hrace : e.race = .serveErr) :
    start cfg e s =
      ({ s with rustLogVar := some (resolveFilter cfg), loggerInitialized := true, fs := fs1 }, .error .transportError) := by
  simp [start, set_logging_verbosity_of_not_initialized cfg s hlog, hst, hu, hsig, hrace]

theorem start_of_race_resolved (cfg : Config) (e : StartEnv) (s : ProcState)
    (hlog : s.loggerInitialized = false) (hst : e.storageOpenOk = true)
    (fs1 : Fs)
    (hu : unix_domain_listener cfg e.fsOracle s.fs = (fs1, .ok ()))
    (hsig : e.signalRegistrationOk = true)
    (hrace : e.race ≠ .serveErr) :
    start cfg e s =
      cleanup cfg e { s with rustLogVar := some (resolveFilter cfg), loggerInitialized := true, fs := fs1 } := by
  cases hr : e.race
  case serveErr => exact absurd hr hrace
  all_goals
    simp only [start, set_logging_verbosity_of_not_initialized cfg s hlog, hst, hu, hsig,
      hr, Bool.not_true, Bool.false_eq_true, if_false]

/-- Cleanup never touches the RUST_LOG environment variable. -/
theorem cleanup_rustLogVar (cfg : Config) (e : StartEnv) (s : ProcState) :
    (cleanup cfg e s).1.rustLogVar = s.rustLogVar := by
  simp only [cleanup]
  split
  · rfl
  · split <;> rfl

/-- Cleanup bumps the persist counter by exactly one, on every branch. -/
theorem cleanup_persistCount (cfg : Config) (e : StartEnv) (s : ProcState) :
    (cleanup cfg e s).1.persistCount = s.persistCount + 1 := by
  simp only [cleanup]
  split
  · rfl
  · split <;> rfl

/-! Claim theorems. -/

/-- C4: for every relative (non-absolute) socket path,
unix_domain_listener fails with the configuration error and performs no
filesystem mutation: the filesystem it returns is exactly the one it was
given. -/
theorem relative_path_configuration_error (cfg : Config) (o : FsOracle) (fs : Fs)
    (h : cfg.sock_path.absolute = false) :
    (unix_domain_listener cfg o fs).1 = fs ∧
    (unix_domain_listener cfg o fs).2 =
      .error (.configurationError "specified socket path is not absolute") := by
  simp [unix_domain_listener, h]

/-- Witness for C4 at the concrete relative path not/absolute/path. -/
theorem relative_path_configuration_error_witness :
    (unix_domain_listener relConfig allOk sampleFs).1 = sampleFs ∧
    (unix_domain_listener relConfig allOk sampleFs).2 =
      .error (.configurationError "specified socket path is not absolute") :=
  relative_path_configuration_error relConfig allOk sampleFs rfl

/-- C7: the default interceptor returns every well-formed request
unmodified, emits exactly one diagnostic record, and never returns a
rejection. -/
theorem intercept_identity (req : Request) :
    (intercept req).2 = Except.ok req ∧ (intercept req).1.length = 1 :=
  ⟨rfl, rfl⟩

/-- C8: logging-filter resolution is a pure function of the
configuration: Global scope yields the log level alone, ScopedToOwner
yields crate name, equals sign, log level; set_logging_verbosity stores
exactly this string in RUST_LOG. -/
theorem logging_filter_resolution (cfg : Config) (s : ProcState) :
    (cfg.log_scope = LogScope.Global →
      (set_logging_verbosity cfg s).1.rustLogVar = some cfg.log_level.render) ∧
    (cfg.log_scope = LogScope.ScopedToOwner →
      (set_logging_verbosity cfg s).1.rustLogVar =
        some (crateName ++ "=" ++ cfg.log_level.render)) := by
  constructor <;> intro h <;>
    simp only [set_logging_verbosity, resolveFilter, h] <;>
    split <;> simp

/-- Witness for C8 at the concrete Global-scope configuration. -/
theorem logging_filter_resolution_witness :
    (set_logging_verbosity sampleConfig initState).1.rustLogVar = some "INFO" := by
  simpa using (logging_filter_resolution sampleConfig initState).1 rfl

/-- C2 counterexample: at a concrete state with a present, removable
socket file, a persist failure during cleanup leaves the socket file in
place — the removal step was not attempted, contradicting the claim that
a step-1 failure never skips step 2. -/
theorem cleanup_skips_removal_on_persist_failure_cex :
    (cleanup sampleConfig persistFailEnv staleState).2 = .error .persistenceError ∧
    (cleanup sampleConfig persistFailEnv staleState).1.fs.files.contains
      sampleConfig.sock_path = true := by
  constructor <;> rfl

/-- C2 amended: during cleanup, persist is always invoked; when it fails
the persistence error propagates and the filesystem is left untouched
(the removal step is skipped), and only when persist succeeds is the
removal of the socket file attempted. -/
theorem cleanup_persist_then_remove (cfg : Config) (e : StartEnv) (s : ProcState) :
    (cleanup cfg e s).1.persistCount = s.persistCount + 1 ∧
    (e.persistOk = false →
      (cleanup cfg e s).2 = .error .persistenceError ∧
      (cleanup cfg e s).1.fs = s.fs) ∧
    (e.persistOk = true →
      ((cleanup cfg e s).1.fs.files = s.fs.files.filter (fun q => q ≠ cfg.sock_path) ∧
        (cleanup cfg e s).2 = .ok ()) ∨
      ((cleanup cfg e s).1.fs = s.fs ∧
        (cleanup cfg e s).2 = .error (.filesystemError "remove socket path"))) := by
  refine ⟨?_, ?_, ?_⟩
  · simp only [cleanup]
    split <;> [skip; split] <;> rfl
  · intro h
    simp [cleanup, h]
  · intro h
    simp only [cleanup, h, Bool.not_true, Bool.false_eq_true, if_false]
    split
    · exact Or.inl ⟨rfl, rfl⟩
    · exact Or.inr ⟨rfl, rfl⟩

/-- Witness for C2 amended at a concrete cleanup in which persist
succeeds and the stale socket file is removed. -/
theorem cleanup_persist_then_remove_witness :
    ((cleanup sampleConfig interruptEnv staleState).1.fs.files =
        staleFs.files.filter (fun q => q ≠ sampleConfig.sock_path) ∧
      (cleanup sampleConfig interruptEnv staleState).2 = .ok ()) ∨
    ((cleanup sampleConfig interruptEnv staleState).1.fs = staleFs ∧
      (cleanup sampleConfig interruptEnv staleState).2 =
        .error (.filesystemError "remove socket path")) :=
  (cleanup_persist_then_remove sampleConfig interruptEnv staleState).2.2 rfl

/-- C1 counterexample: a concrete start/stop cycle in which startup fully
succeeds and the serve loop then ends with a transport error: start
returns the transport error, persist was never invoked, and the socket
file is still on disk — neither cleanup step was attempted, contradicting
the claim that cleanup runs whichever branch finishes first. -/
theorem serve_error_skips_cleanup_cex :
    (start sampleConfig serveErrEnv initState).2 = .error .transportError ∧
    (start sampleConfig serveErrEnv initState).1.persistCount = 0 ∧
    (start sampleConfig serveErrEnv initState).1.fs.files.contains sampleSockPath = true :=
  ⟨rfl, rfl, rfl⟩

/-- C1 amended: after a successful startup, when the race resolves via a
signal or a normal serve return, start runs the full cleanup sequence;
but when the serve loop ends with a transport error, the error propagates
immediately and no cleanup step is attempted (persist count and
filesystem are left as they were). -/
theorem race_outcome_determines_cleanup (cfg : Config) (e : StartEnv) (s : ProcState)
    (hlog : s.loggerInitialized = false) (hst : e.storageOpenOk = true)
    (fs1 : Fs) (hu : unix_domain_listener cfg e.fsOracle s.fs = (fs1, .ok ()))
    (hsig : e.signalRegistrationOk = true) :
    (e.race = .serveErr →
      (start cfg e s).2 = .error .transportError ∧
      (start cfg e s).1.persistCount = s.persistCount ∧
      (start cfg e s).1.fs = fs1) ∧
    (e.race ≠ .serveErr →
      start cfg e s =
        cleanup cfg e { s with rustLogVar := some (resolveFilter cfg), loggerInitialized := true, fs := fs1 }) := by
  constructor
  · intro hrace
    rw [start_of_serve_error cfg e s hlog hst fs1 hu hsig hrace]
    exact ⟨rfl, rfl, rfl⟩
  · intro hrace
    exact start_of_race_resolved cfg e s hlog hst fs1 hu hsig hrace

/-- Witness for C1 amended: a concrete interrupt-signal run defers to
cleanup. -/
theorem race_outcome_determines_cleanup_witness :
    start sampleConfig interruptEnv initState =
      cleanup sampleConfig interruptEnv
        { initState with rustLogVar := some (resolveFilter sampleConfig), loggerInitialized := true, fs := (unix_domain_listener sampleConfig interruptEnv.fsOracle initState.fs).1 } :=
  (race_outcome_determines_cleanup sampleConfig interruptEnv initState rfl rfl
    (unix_domain_listener sampleConfig interruptEnv.fsOracle initState.fs).1 rfl rfl).2
    (by decide)

/-- C3 counterexample: a complete cycle (startup succeeded, the race
resolved, start returned) with zero invocations of persist, contradicting
never zero times. -/
theorem persist_zero_invocations_cex :
    (start sampleConfig serveErrEnv initState).1.persistCount = 0 ∧
    (start sampleConfig serveErrEnv initState).2 = .error .transportError :=
  ⟨rfl, rfl⟩

/-- C3 amended: starting from a state in which persist was never invoked,
one run of start invokes persist at most once, and exactly once precisely
when startup succeeded (logger fresh, storage opened, listener bound,
signals registered) and the race did not resolve with a serve-loop
transport error. -/
theorem persist_at_most_once (cfg : Config) (e : StartEnv) (s : ProcState)
    (h0 : s.persistCount = 0) :
    (start cfg e s).1.persistCount ≤ 1 ∧
    ((start cfg e s).1.persistCount = 1 ↔
      (s.loggerInitialized = false ∧ e.storageOpenOk = true ∧
        (unix_domain_listener cfg e.fsOracle s.fs).2 = .ok () ∧
        e.signalRegistrationOk = true ∧ e.race ≠ .serveErr)) := by
  by_cases hlog : s.loggerInitialized = true
  · rw [start_of_logger_initialized cfg e s hlog]
    simp [h0, hlog]
  · have hlog2 : s.loggerInitialized = false := by simpa using hlog
    by_cases hst : e.storageOpenOk = true
    · rcases hu : unix_domain_listener cfg e.fsOracle s.fs with ⟨fs1, r⟩
      cases r with
      | error err =>
        rw [start_of_listener_fail cfg e s hlog2 hst fs1 err hu]
        simp [h0, hu]
      | ok u =>
        cases u
        by_cases hsig : e.signalRegistrationOk = true
        · by_cases hrace : e.race = .serveErr
          · rw [start_of_serve_error cfg e s hlog2 hst fs1 hu hsig hrace]
            simp [h0, hrace]
          · rw [start_of_race_resolved cfg e s hlog2 hst fs1 hu hsig hrace,
              cleanup_persistCount]
            simp [h0, hlog2, hst, hu, hsig, hrace]
        · have hsig2 : e.signalRegistrationOk = false := by simpa using hsig
          rw [start_of_signal_fail cfg e s hlog2 hst fs1 hu hsig2]
          simp [h0, hsig2]
    · have hst2 : e.storageOpenOk = false := by simpa using hst
      rw [start_of_storage_fail cfg e s hlog2 hst2]
      simp [h0, hst2]

/-- Witness for C3 amended at a concrete interrupt-signal run. -/
theorem persist_at_most_once_witness :
    (start sampleConfig interruptEnv initState).1.persistCount ≤ 1 :=
  (persist_at_most_once sampleConfig interruptEnv initState rfl).1

/-- C9 counterexample: with a logger already installed, the second
initialization attempt makes start fail with the logger-init error,
contradicting the claim that it does not make the start operation
fail. -/
theorem second_logger_init_fails_start_cex :
    (start sampleConfig interruptEnv staleState).2 = .error .loggerInitError :=
  rfl

/-- C9 amended: when a logger is already installed, the second
initialization attempt causes set_logging_verbosity to return an error
which start propagates: start fails with the logger-init error before
touching the storage or the filesystem. -/
theorem second_logger_init_is_fatal (cfg : Config) (e : StartEnv) (s : ProcState)
    (h : s.loggerInitialized = true) :
    (start cfg e s).2 = .error .loggerInitError ∧
    (start cfg e s).1.persistCount = s.persistCount ∧
    (start cfg e s).1.fs = s.fs := by
  rw [start_of_logger_initialized cfg e s h]
  exact ⟨rfl, rfl, rfl⟩

/-- Witness for C9 amended at a concrete already-initialized state. -/
theorem second_logger_init_is_fatal_witness :
    (start relConfig persistFailEnv staleState).2 = .error .loggerInitError ∧
    (start relConfig persistFailEnv staleState).1.persistCount = staleState.persistCount ∧
    (start relConfig persistFailEnv staleState).1.fs = staleState.fs :=
  second_logger_init_is_fatal relConfig persistFailEnv staleState rfl

/-- C10: on every run of start — successful, or failing at logger
initialization, storage opening, listener binding, signal registration,
serving, or cleanup — the RUST_LOG environment variable ends up set to
the resolved filter string: the mutation happens before any failure point
and is never undone. -/
theorem rust_log_always_set (cfg : Config) (e : StartEnv) (s : ProcState) :
    (start cfg e s).1.rustLogVar = some (resolveFilter cfg) := by
  by_cases hlog : s.loggerInitialized = true
  · rw [start_of_logger_initialized cfg e s hlog]
  · have hlog2 : s.loggerInitialized = false := by simpa using hlog
    by_cases hst : e.storageOpenOk = true
    · rcases hu : unix_domain_listener cfg e.fsOracle s.fs with ⟨fs1, r⟩
      cases r with
      | error err => rw [start_of_listener_fail cfg e s hlog2 hst fs1 err hu]
      | ok u =>
        cases u
        by_cases hsig : e.signalRegistrationOk = true
        · by_cases hrace : e.race = .serveErr
          · rw [start_of_serve_error cfg e s hlog2 hst fs1 hu hsig hrace]
          · rw [start_of_race_resolved cfg e s hlog2 hst fs1 hu hsig hrace,
              cleanup_rustLogVar]
        · have hsig2 : e.signalRegistrationOk = false := by simpa using hsig
          rw [start_of_signal_fail cfg e s hlog2 hst fs1 hu hsig2]
    · have hst2 : e.storageOpenOk = false := by simpa using hst
      rw [start_of_storage_fail cfg e s hlog2 hst2]

/-! Helper lemmas on the filesystem operations. -/

/-- Binding succeeds on a free path when the OS permits it. -/
theorem bindSocket_ok (o : FsOracle) (fs : Fs) (p : FsPath)
    (h : fs.pathExists p = false) (hb : o.bindOk = true) :
    bindSocket o fs p = ({ fs with files := p :: fs.files }, .ok ()) := by
  simp [bindSocket, h, hb]

/-- A path never occurs among the self-and-ancestors of its parent: every
one of those has a strictly shorter component list. -/
theorem not_mem_parent_selfAndAncestors (p d : FsPath) (h : p.parent = some d) :
    p ∉ d.selfAndAncestors := by
  intro hm
  rcases p with ⟨pa, pc⟩
  cases pc with
  | nil => simp [FsPath.parent] at h
  | cons a as =>
    have hd : d = ⟨pa, (a :: as).dropLast⟩ := by
      simp [FsPath.parent] at h
      exact h.symm
    subst hd
    simp only [FsPath.selfAndAncestors, List.mem_map, List.mem_range] at hm
    obtain ⟨i, hi, heq⟩ := hm
    have hcomp : ((a :: as).dropLast.take i) = a :: as := congrArg FsPath.components heq
    have hlen := congrArg List.length hcomp
    simp [List.length_take, List.length_dropLast] at hlen
    omega

/-- C5: for every absolute socket path at which a filesystem entry
already exists, unix_domain_listener first removes that entry and then
binds, leaving exactly one entry at the path and the directories
untouched; when the removal fails, the whole operation fails with the
filesystem error of the removal and the filesystem is unchanged. -/
theorem stale_entry_removed_then_bound (cfg : Config) (o : FsOracle) (fs : Fs)
    (habs : cfg.sock_path.absolute = true)
    (hex : fs.pathExists cfg.sock_path = true) :
    ((fs.files.contains cfg.sock_path = true ∧ fs.dirs.contains cfg.sock_path = false ∧
        o.removeOk = true ∧ o.bindOk = true) →
      (unix_domain_listener cfg o fs).2 = .ok () ∧
      (unix_domain_listener cfg o fs).1.files.count cfg.sock_path = 1 ∧
      (unix_domain_listener cfg o fs).1.dirs = fs.dirs) ∧
    ((fs.files.contains cfg.sock_path && !(fs.dirs.contains cfg.sock_path)
        && o.removeOk) = false →
      (unix_domain_listener cfg o fs).1 = fs ∧
      (unix_domain_listener cfg o fs).2 =
        .error (.filesystemError "unable to remove socket file")) := by
  constructor
  · rintro ⟨hf, hdir, hrm, hb⟩
    have hf2 : cfg.sock_path ∈ fs.files := by simpa using hf
    have hd2 : cfg.sock_path ∉ fs.dirs := by simpa using hdir
    have hrem : removeFile o fs cfg.sock_path =
        ({ fs with files := fs.files.filter (fun q => q ≠ cfg.sock_path) }, .ok ()) := by
      simp [removeFile, hf2, hd2, hrm]
    have hpe : Fs.pathExists
        { fs with files := fs.files.filter (fun q => q ≠ cfg.sock_path) }
        cfg.sock_path = false := by
      simp [Fs.pathExists, hd2]
    have hbnd := bindSocket_ok o
      { fs with files := fs.files.filter (fun q => q ≠ cfg.sock_path) } cfg.sock_path hpe hb
    simp only [unix_domain_listener, habs, Bool.not_true, Bool.false_eq_true, if_false,
      hex, if_true, hrem, hbnd]
    refine ⟨trivial, ?_, trivial⟩
    simp [List.count_cons_self, List.count_eq_zero]
  · intro hfail
    have hrem : removeFile o fs cfg.sock_path =
        (fs, .error (.filesystemError "unable to remove socket file")) := by
      simp only [removeFile, hfail, Bool.false_eq_true, if_false]
    simp [unix_domain_listener, habs, hex, hrem]

/-- Witness for C5: the concrete stale socket file is removed and
rebound, leaving exactly one entry. -/
theorem stale_entry_removed_then_bound_witness :
    (unix_domain_listener sampleConfig allOk staleFs).2 = .ok () ∧
    (unix_domain_listener sampleConfig allOk staleFs).1.files.count
      sampleConfig.sock_path = 1 ∧
    (unix_domain_listener sampleConfig allOk staleFs).1.dirs = staleFs.dirs :=
  (stale_entry_removed_then_bound sampleConfig allOk staleFs rfl rfl).1
    ⟨rfl, rfl, rfl, rfl⟩

/-- C6: for every absolute socket path with no entry on disk and a
missing parent directory, unix_domain_listener creates the parent
directory together with every needed ancestor and then creates the entry
by binding; a directory-creation failure aborts with the filesystem error
and leaves the filesystem unchanged. -/
theorem missing_parent_created_then_bound (cfg : Config) (o : FsOracle) (fs : Fs)
    (d : FsPath)
    (habs : cfg.sock_path.absolute = true)
    (hnex : fs.pathExists cfg.sock_path = false)
    (hpar : cfg.sock_path.parent = some d)
    (hmiss : fs.dirs.contains d = false) :
    ((o.mkdirOk = true ∧ o.bindOk = true) →
      (unix_domain_listener cfg o fs).2 = .ok () ∧
      (∀ q ∈ d.selfAndAncestors, q ∈ (unix_domain_listener cfg o fs).1.dirs) ∧
      cfg.sock_path ∈ (unix_domain_listener cfg o fs).1.files) ∧
    (o.mkdirOk = false →
      (unix_domain_listener cfg o fs).1 = fs ∧
      (unix_domain_listener cfg o fs).2 =
        .error (.filesystemError "create socket dir")) := by
  have hnboth : fs.files.contains cfg.sock_path = false ∧
      fs.dirs.contains cfg.sock_path = false := by
    simpa [Fs.pathExists] using hnex
  have hnm := not_mem_parent_selfAndAncestors cfg.sock_path d hpar
  constructor
  · rintro ⟨hmk, hb⟩
    have hmkd : createDirAll o fs d =
        ({ fs with
            dirs := fs.dirs ++ (d.selfAndAncestors.filter (fun q => !(fs.dirs.contains q))) },
          .ok ()) := by
      simp [createDirAll, hmk]
    have hndir : cfg.sock_path ∉ fs.dirs := by simpa using hnboth.2
    have hpe : Fs.pathExists
        { fs with
            dirs := fs.dirs ++ (d.selfAndAncestors.filter (fun q => !(fs.dirs.contains q))) }
        cfg.sock_path = false := by
      simp only [Fs.pathExists, Bool.or_eq_false_iff]
      refine ⟨hnboth.1, ?_⟩
      simp [hndir, hnm, List.mem_filter]
    have hbnd := bindSocket_ok o
      { fs with
          dirs := fs.dirs ++ (d.selfAndAncestors.filter (fun q => !(fs.dirs.contains q))) }
      cfg.sock_path hpe hb
    simp only [unix_domain_listener, habs, Bool.not_true, Bool.false_eq_true, if_false,
      hnex, hpar, hmkd, hbnd]
    refine ⟨trivial, ?_, List.mem_cons_self _ _⟩
    intro q hq
    simp only [List.mem_append]
    by_cases hqin : q ∈ fs.dirs
    · exact Or.inl hqin
    · refine Or.inr (List.mem_filter.mpr ⟨hq, ?_⟩)
      simp [hqin]
  · intro hmk
    have hmkd : createDirAll o fs d =
        (fs, .error (.filesystemError "create socket dir")) := by
      simp [createDirAll, hmk]
    simp [unix_domain_listener, habs, hnex, hpar, hmkd]

/-- Witness for C6: with a fresh filesystem holding only the root
directory, binding the sample socket path creates /, /var and /var/run
and then the socket entry. -/
theorem missing_parent_created_then_bound_witness :
    (unix_domain_listener sampleConfig allOk ⟨[], [⟨true, []⟩]⟩).2 = .ok () ∧
    (∀ q ∈ FsPath.selfAndAncestors ⟨true, ["var", "run"]⟩,
      q ∈ (unix_domain_listener sampleConfig allOk ⟨[], [⟨true, []⟩]⟩).1.dirs) ∧
    sampleConfig.sock_path ∈ (unix_domain_listener sampleConfig allOk ⟨[], [⟨true, []⟩]⟩).1.files :=
  (missing_parent_created_then_bound sampleConfig allOk ⟨[], [⟨true, []⟩]⟩
    ⟨true, ["var", "run"]⟩ rfl rfl rfl rfl).1 ⟨rfl, rfl⟩

end Cri
